import Mathlib

/-!
Shallow embedding of `src/DbConnection.cpp` (RPostgres connection adapter).

The C++ class wraps a libpq `PGconn*`.  We model the native library as an
oracle (`PGconn` below): its fields record the answers libpq would give to
each native call (`PQstatus`, `PQreset`, `PQexec`, `PQputCopyData`, ...).
Each method of `DbConnection` becomes a pure function from the connection
state (and its arguments) to a `Step`: the result (`Except DbError`, since
`stop`/`conn_stop` throw), the updated connection state, and a trace of
observable events (warnings and native calls, in order).
-/

set_option maxHeartbeats 1000000

namespace RPostgres

/-- libpq connection status (`ConnStatusType`); only the distinction
`CONNECTION_OK` vs anything else matters to this code. -/
inductive ConnStatusType
  | CONNECTION_OK
  | CONNECTION_BAD
deriving DecidableEq, Repr

/-- libpq result status (`ExecStatusType`); only the values this code
compares against are distinguished. -/
inductive ExecStatusType
  | PGRES_COMMAND_OK
  | PGRES_TUPLES_OK
  | PGRES_COPY_IN
  | PGRES_FATAL_ERROR
deriving DecidableEq, Repr

/-- Oracle model of a native `PGconn`: current status plus the answers the
native library will give to the calls this adapter makes. -/
structure PGconn where
  /-- `PQstatus` of the live handle. -/
  status : ConnStatusType
  /-- `PQstatus` after a `PQreset`. -/
  statusAfterReset : ConnStatusType
  /-- `PQerrorMessage`. -/
  errorMessage : String
  /-- whether `PQgetCancel` returns `NULL`. -/
  getCancelNull : Bool
  /-- whether `PQcancel` returns nonzero (success). -/
  cancelOk : Bool
  /-- the error buffer filled by a failing `PQcancel`. -/
  cancelErrbuf : String
  /-- status of the `PGresult` returned by `PQexec` on a given sql string. -/
  execStatus : String → ExecStatusType
  /-- whether the i-th `PQputCopyData` call returns 1. -/
  putCopyDataOk : Nat → Bool
  /-- whether `PQputCopyEnd` returns 1. -/
  putCopyEndOk : Bool
  /-- status of the `PGresult` returned by `PQgetResult` after a COPY. -/
  getResultStatus : ExecStatusType
  /-- text produced by `PQescapeLiteral` on a given input. -/
  escapeLiteral : String → String
  /-- text produced by `PQescapeIdentifier` on a given input. -/
  escapeIdentifier : String → String
  /-- how many non-NULL results `PQgetResult` yields before NULL
  (consumed by `finish_query`). -/
  pendingResults : Nat

/-- A `DbResult*`: `id` is the pointer identity (the C++ code only ever
compares these pointers), `complete` is the value of its `complete()`
query. -/
structure DbResult where
  id : Nat
  complete : Bool
deriving DecidableEq, Repr

/-- The `DbConnection` object state: the (possibly released) native handle,
the non-owning current-result pointer, and the two flags. -/
structure DbConnection where
  pConn : Option PGconn
  pCurrentResult : Option DbResult
  transacting : Bool
  check_interrupts : Bool

/-- Observable events: warnings and native libpq calls, in program order. -/
inductive Event
  | warn (msg : String)
  | pqStatus
  | pqReset
  | pqGetCancel
  | pqCancel
  | pqFreeCancel
  | pqFinish
  | pqExec (sql : String)
  | pqClear
  | pqPutCopyData (rowIndex : Nat)
  | pqPutCopyEnd
  | pqGetResult
  | pqEscapeLiteral (s : String)
  | pqEscapeIdentifier (s : String)
  | pqFreemem
deriving DecidableEq, Repr

/-- Errors thrown by the adapter.  `stopError msg` is a plain `stop(msg)`
(the spec's `ConnectionError`); `connStopError msg err` is
`conn_stop(msg)`, which formats `"<msg>: <PQerrorMessage>"` (the spec's
`QueryError`). -/
inductive DbError
  | stopError (msg : String)
  | connStopError (msg : String) (err : String)
deriving DecidableEq, Repr

/-- The user-visible message of an error (`conn_stop` uses the
`"%s: %s"` format of `DbConnection::conn_stop`). -/
def DbError.message : DbError → String
  | .stopError m => m
  | .connStopError m e => m ++ ": " ++ e

/-- Outcome of one method call: result, post-state, event trace. -/
structure Step (α : Type) where
  res : Except DbError α
  conn : DbConnection
  trace : List Event

/-- C++ pointer equality on `DbResult*` (NULL is `none`): compares
identities only. -/
def ptrEq : Option DbResult → Option DbResult → Bool
  | none, none => true
  | some a, some b => a.id == b.id
  | _, _ => false

/-- `DbConnection::has_query`: `pCurrentResult_ != NULL`. -/
def DbConnection.has_query (c : DbConnection) : Bool :=
  c.pCurrentResult.isSome

/-- `DbConnection::is_current_result`: pointer comparison. -/
def DbConnection.is_current_result (c : DbConnection) (pResult : Option DbResult) : Bool :=
  ptrEq c.pCurrentResult pResult

/-- `DbConnection::disconnect`: `PQfinish` then null the handle; the
surrounding `try { } catch (...) {}` means it never throws, which the
return type (no `Except`) reflects. -/
def DbConnection.disconnect (c : DbConnection) : DbConnection × List Event :=
  ({ c with pConn := none }, [Event.pqFinish])

/-- `DbConnection::check_connection`: `stop("Disconnected")` on a null
handle; return if `PQstatus` is OK; otherwise one `PQreset`, re-check,
and `conn_stop("Lost connection to database")` if still not OK. -/
def DbConnection.check_connection (c : DbConnection) : Step Unit :=
  match c.pConn with
  | none => ⟨.error (.stopError "Disconnected"), c, []⟩
  | some pg =>
    if pg.status = .CONNECTION_OK then
      ⟨.ok (), c, [.pqStatus]⟩
    else
      let pg' := { pg with status := pg.statusAfterReset }
      let c' := { c with pConn := some pg' }
      if pg'.status = .CONNECTION_OK then
        ⟨.ok (), c', [.pqStatus, .pqReset, .pqStatus]⟩
      else
        ⟨.error (.connStopError "Lost connection to database" pg'.errorMessage),
         c', [.pqStatus, .pqReset, .pqStatus]⟩

/-- `DbConnection::cancel_query`: `check_connection()`, then `PQgetCancel`
(`stop` on NULL), then `PQcancel` (warning with the error buffer on
failure — best effort), then `PQfreeCancel`. -/
def DbConnection.cancel_query (c : DbConnection) : Step Unit :=
  match c.check_connection with
  | ⟨.error e, c', tr⟩ => ⟨.error e, c', tr⟩
  | ⟨.ok _, c', tr⟩ =>
    match c'.pConn with
    | none =>
      ⟨.error (.stopError "Connection error detected via PQgetCancel()"), c',
       tr ++ [.pqGetCancel]⟩
    | some pg =>
      if pg.getCancelNull then
        ⟨.error (.stopError "Connection error detected via PQgetCancel()"), c',
         tr ++ [.pqGetCancel]⟩
      else if pg.cancelOk then
        ⟨.ok (), c', tr ++ [.pqGetCancel, .pqCancel, .pqFreeCancel]⟩
      else
        ⟨.ok (), c',
         tr ++ [.pqGetCancel, .pqCancel, .warn pg.cancelErrbuf, .pqFreeCancel]⟩

/-- The trace of `finish_query`'s drain loop when `PQgetResult` yields `n`
non-NULL results before NULL: `n` (get, clear) pairs then the final get. -/
def drainTrace : Nat → List Event
  | 0 => [Event.pqGetResult]
  | n + 1 => Event.pqGetResult :: Event.pqClear :: drainTrace n

/-- `DbConnection::finish_query`: drain pending results with
`PQgetResult`/`PQclear` until NULL.  On a NULL handle `PQgetResult`
returns NULL at once. -/
def DbConnection.finish_query (c : DbConnection) : DbConnection × List Event :=
  match c.pConn with
  | none => (c, [Event.pqGetResult])
  | some pg =>
    ({ c with pConn := some { pg with pendingResults := 0 } },
     drainTrace pg.pendingResults)

/-- The guard of `cleanup_query`:
`pCurrentResult_ != NULL && !(pCurrentResult_->complete())`. -/
def needsCancel (c : DbConnection) : Bool :=
  match c.pCurrentResult with
  | none => false
  | some r => !r.complete

/-- `DbConnection::cleanup_query`: cancel the in-flight query if the
current result exists and is not complete (an exception there
propagates), then always drain via `finish_query`. -/
def DbConnection.cleanup_query (c : DbConnection) : Step Unit :=
  if needsCancel c then
    match c.cancel_query with
    | ⟨.error e, c', tr⟩ => ⟨.error e, c', tr⟩
    | ⟨.ok _, c', tr⟩ =>
      let fq := c'.finish_query
      ⟨.ok (), fq.1, tr ++ fq.2⟩
  else
    let fq := c.finish_query
    ⟨.ok (), fq.1, fq.2⟩

/-- `DbConnection::set_current_result`: no-op on the same pointer;
otherwise, if a result is tracked, warn (only when the candidate is
non-null) and clean up the previous query; finally record the
candidate. -/
def DbConnection.set_current_result (c : DbConnection) (pResult : Option DbResult) :
    Step Unit :=
  if ptrEq pResult c.pCurrentResult then
    ⟨.ok (), c, []⟩
  else
    match c.pCurrentResult with
    | none => ⟨.ok (), { c with pCurrentResult := pResult }, []⟩
    | some _ =>
      let warnTr : List Event :=
        if pResult.isSome then
          [.warn "Closing open result set, cancelling previous query"]
        else []
      match c.cleanup_query with
      | ⟨.error e, c', tr⟩ => ⟨.error e, c', warnTr ++ tr⟩
      | ⟨.ok _, c', tr⟩ =>
        ⟨.ok (), { c' with pCurrentResult := pResult }, warnTr ++ tr⟩

/-- `DbConnection::reset_current_result`: no-op unless the candidate is
the tracked pointer; otherwise `cleanup_query()` then null the
pointer. -/
def DbConnection.reset_current_result (c : DbConnection) (pResult : Option DbResult) :
    Step Unit :=
  if ptrEq pResult c.pCurrentResult then
    match c.cleanup_query with
    | ⟨.error e, c', tr⟩ => ⟨.error e, c', tr⟩
    | ⟨.ok _, c', tr⟩ => ⟨.ok (), { c' with pCurrentResult := none }, tr⟩
  else
    ⟨.ok (), c, []⟩

/-- The `DbConnection` constructor: `pg` is the handle `PQconnectdbParams`
produced for the given key/value options.  On bad status: capture
`PQerrorMessage`, `PQfinish`, `stop(err)`.  Otherwise the fields are
initialised as in the C++ initialiser list (`pCurrentResult_(NULL)`,
`transacting_(false)`). -/
def construct (keys values : List String) (check_interrupts : Bool) (pg : PGconn) :
    Except DbError DbConnection :=
  if pg.status ≠ .CONNECTION_OK then
    .error (.stopError pg.errorMessage)
  else
    let _ := keys
    let _ := values
    .ok { pConn := some pg, pCurrentResult := none,
          transacting := false, check_interrupts := check_interrupts }

/-- An R `String` argument: `NA_STRING` or a present string. -/
inductive RString
  | NA
  | str (s : String)
deriving DecidableEq, Repr

/-- A returned `CHARSXP`: either the process-wide static `"NULL"` object
created by `get_null_string`, or a freshly made character object. -/
inductive CharSEXP
  | nullSingleton
  | fresh (s : String)
deriving DecidableEq, Repr

/-- `Rcpp::String::get_cstring`: the C string of the argument;
`CHAR(NA_STRING)` is the two-byte text `"NA"`. -/
def RString.get_cstring : RString → String
  | .NA => "NA"
  | .str s => s

/-- `DbConnection::get_null_string`: the function-local
`static RObject null = Rf_mkCharCE("NULL", CE_UTF8)`, i.e. one cached,
referentially stable object returned on every call. -/
def get_null_string : CharSEXP := .nullSingleton

/-- `DbConnection::quote_string`: `check_connection()` first; `NA_STRING`
returns the cached NULL singleton; otherwise `PQescapeLiteral`, wrap the
text, `PQfreemem` the native buffer, return. -/
def DbConnection.quote_string (c : DbConnection) (x : RString) : Step CharSEXP :=
  match c.check_connection with
  | ⟨.error e, c', tr⟩ => ⟨.error e, c', tr⟩
  | ⟨.ok _, c', tr⟩ =>
    match x with
    | .NA => ⟨.ok get_null_string, c', tr⟩
    | .str s =>
      match c'.pConn with
      | none => ⟨.ok (.fresh ""), c', tr⟩
      | some pg =>
        ⟨.ok (.fresh (pg.escapeLiteral s)), c',
         tr ++ [.pqEscapeLiteral s, .pqFreemem]⟩

/-- `DbConnection::quote_identifier`: `check_connection()` first (the
source at lines 218-227 performs the same liveness check as
`quote_string`); then `PQescapeIdentifier` on the argument's C string
(no `NA_STRING` special case here), wrap, `PQfreemem`, return. -/
def DbConnection.quote_identifier (c : DbConnection) (x : RString) : Step CharSEXP :=
  match c.check_connection with
  | ⟨.error e, c', tr⟩ => ⟨.error e, c', tr⟩
  | ⟨.ok _, c', tr⟩ =>
    match c'.pConn with
    | none => ⟨.ok (.fresh ""), c', tr⟩
    | some pg =>
      ⟨.ok (.fresh (pg.escapeIdentifier x.get_cstring)), c',
       tr ++ [.pqEscapeIdentifier x.get_cstring, .pqFreemem]⟩

/-- The row loop of `copy_data`: submit rows `start, start+1, ...` (`k`
of them) via `PQputCopyData`; the first non-1 return aborts with
`conn_stop("Failed to put data")`.  Returns the loop's result and its
trace of `pqPutCopyData` events. -/
def copyRowsAux (pg : PGconn) (start : Nat) : Nat → Except DbError Unit × List Event
  | 0 => (.ok (), [])
  | k + 1 =>
    if pg.putCopyDataOk start then
      let rest := copyRowsAux pg (start + 1) k
      (rest.1, Event.pqPutCopyData start :: rest.2)
    else
      (.error (.connStopError "Failed to put data" pg.errorMessage),
       [Event.pqPutCopyData start])

/-- `DbConnection::copy_data(sql, df)`: return at once when the data frame
has zero columns; `PQexec(sql)` must yield `PGRES_COPY_IN` (else clear and
`conn_stop("Failed to initialise COPY")`); submit each of the
`Rf_length(df[0])` rows with `PQputCopyData`; `PQputCopyEnd` (else
`conn_stop("Failed to finish COPY")`); fetch the completion result, which
must be `PGRES_COMMAND_OK` (else clear and `conn_stop("COPY returned
error")`), then clear it.  Columns are lists of opaque cells; the row
encoding collaborator (`encode_row_in_buffer`) only affects the submitted
bytes, not the control flow modelled here. -/
def DbConnection.copy_data (c : DbConnection) (sql : String) (df : List (List String)) :
    Step Unit :=
  if df.length = 0 then ⟨.ok (), c, []⟩
  else
    match c.pConn with
    | none =>
      ⟨.error (.connStopError "Failed to initialise COPY" ""), c,
       [.pqExec sql, .pqClear]⟩
    | some pg =>
      if pg.execStatus sql ≠ .PGRES_COPY_IN then
        ⟨.error (.connStopError "Failed to initialise COPY" pg.errorMessage), c,
         [.pqExec sql, .pqClear]⟩
      else
        let n := (df.headD []).length
        match copyRowsAux pg 0 n with
        | (.error e, tr) => ⟨.error e, c, .pqExec sql :: .pqClear :: tr⟩
        | (.ok _, tr) =>
          if pg.putCopyEndOk then
            if pg.getResultStatus = .PGRES_COMMAND_OK then
              ⟨.ok (), c,
               .pqExec sql :: .pqClear :: tr ++ [.pqPutCopyEnd, .pqGetResult, .pqClear]⟩
            else
              ⟨.error (.connStopError "COPY returned error" pg.errorMessage), c,
               .pqExec sql :: .pqClear :: tr ++ [.pqPutCopyEnd, .pqGetResult, .pqClear]⟩
          else
            ⟨.error (.connStopError "Failed to finish COPY" pg.errorMessage), c,
             .pqExec sql :: .pqClear :: tr ++ [.pqPutCopyEnd]⟩

/-- The warnings a trace emitted, in order. -/
def warningsOf (tr : List Event) : List String :=
  tr.filterMap fun e =>
    match e with
    | .warn m => some m
    | _ => none

/-- Is the event a native libpq call (anything but a warning)? -/
def Event.isNativeCall : Event → Bool
  | .warn _ => false
  | _ => true

/-- Is the event a `PQputCopyData` (row submission)? -/
def Event.isPutCopyData : Event → Bool
  | .pqPutCopyData _ => true
  | _ => false

/-! Concrete fixtures used to instantiate the theorems. -/

/-- A healthy native handle: OK status, all native calls succeed. -/
def pgOk : PGconn where
  status := .CONNECTION_OK
  statusAfterReset := .CONNECTION_OK
  errorMessage := "native error"
  getCancelNull := false
  cancelOk := true
  cancelErrbuf := "cancel failed"
  execStatus := fun _ => .PGRES_COPY_IN
  putCopyDataOk := fun _ => true
  putCopyEndOk := true
  getResultStatus := .PGRES_COMMAND_OK
  escapeLiteral := fun s => "'" ++ s ++ "'"
  escapeIdentifier := fun s => "\x22" ++ s ++ "\x22"
  pendingResults := 0

/-- A handle whose `PQexec` does not yield copy-in. -/
def pgBadExec : PGconn := { pgOk with execStatus := fun _ => .PGRES_FATAL_ERROR }

/-- A degraded handle that `PQreset` does not recover. -/
def pgDown : PGconn :=
  { pgOk with status := .CONNECTION_BAD, statusAfterReset := .CONNECTION_BAD }

/-- A degraded handle that `PQreset` recovers. -/
def pgRecover : PGconn :=
  { pgOk with status := .CONNECTION_BAD, statusAfterReset := .CONNECTION_OK }

/-- A live connection with no current result. -/
def cOk : DbConnection where
  pConn := some pgOk
  pCurrentResult := none
  transacting := false
  check_interrupts := false

/-- A disconnected connection (`pConn_ == NULL`). -/
def cDisc : DbConnection := { cOk with pConn := none }

/-- A live connection tracking a complete result of identity 0. -/
def cWithA : DbConnection := { cOk with pCurrentResult := some ⟨0, true⟩ }

/-- A connection holding the unrecoverably degraded handle. -/
def cDown : DbConnection := { cOk with pConn := some pgDown }

/-- A connection holding the recoverable degraded handle. -/
def cRecover : DbConnection := { cOk with pConn := some pgRecover }

/-- A connection holding the handle whose `PQexec` fails. -/
def cBadExec : DbConnection := { cOk with pConn := some pgBadExec }

/-! The claims. -/

/-- C9: `disconnect()` is idempotent: it raises no error (its return type
has no error channel, matching the swallow-all `try`/`catch`), leaves the
internal handle empty, and a second call leaves the very same empty state
(and the same events), so disconnect twice equals a single disconnect. -/
theorem C9_disconnect_idempotent (c : DbConnection) :
    (c.disconnect.1).pConn = none ∧
    (c.disconnect.1).disconnect.1 = c.disconnect.1 ∧
    (c.disconnect.1).disconnect.2 = c.disconnect.2 := by
  simp [DbConnection.disconnect]

/-- C8: `copy_data` on a data frame with zero columns returns successfully
at once: no native calls (empty trace) and the connection state is
returned unchanged, for every sql string. -/
theorem C8_copy_data_zero_columns (c : DbConnection) (sql : String)
    (df : List (List String)) (hdf : df.length = 0) :
    c.copy_data sql df = ⟨.ok (), c, []⟩ := by
  simp [DbConnection.copy_data, hdf]

/-- C8 witness at a concrete connection and empty data frame. -/
theorem C8_copy_data_zero_columns_witness :
    ([] : List (List String)).length = 0 ∧
    cOk.copy_data "COPY tbl FROM STDIN" [] = ⟨.ok (), cOk, []⟩ :=
  ⟨rfl, C8_copy_data_zero_columns cOk "COPY tbl FROM STDIN" [] rfl⟩

/-- C3: `check_connection` fails with the plain `stop` error
`"Disconnected"` when no handle is held; with an OK status it returns with
no native call beyond the one status read; otherwise it performs exactly
one `PQreset` (no retry loop) and either returns (status recovered) or
fails with `conn_stop`, whose message is `"Lost connection to database"`
followed by the native error text. -/
theorem C3_check_connection (c : DbConnection) (pg : PGconn) :
    (c.pConn = none →
      c.check_connection = ⟨.error (.stopError "Disconnected"), c, []⟩) ∧
    (c.pConn = some pg → pg.status = .CONNECTION_OK →
      c.check_connection = ⟨.ok (), c, [.pqStatus]⟩) ∧
    (c.pConn = some pg → pg.status ≠ .CONNECTION_OK →
      (c.check_connection.trace.count .pqReset = 1 ∧
       (pg.statusAfterReset = .CONNECTION_OK → c.check_connection.res = .ok ()) ∧
       (pg.statusAfterReset ≠ .CONNECTION_OK →
         c.check_connection.res =
           .error (.connStopError "Lost connection to database" pg.errorMessage) ∧
         (DbError.connStopError "Lost connection to database" pg.errorMessage).message =
           "Lost connection to database: " ++ pg.errorMessage))) := by
  refine ⟨fun h => by simp [DbConnection.check_connection, h],
          fun h hok => by simp [DbConnection.check_connection, h, hok],
          fun h hbad => ?_⟩
  by_cases hr : pg.statusAfterReset = .CONNECTION_OK
  · refine ⟨?_, fun _ => ?_, fun hne => absurd hr hne⟩
    · simp [DbConnection.check_connection, h, hbad, hr, List.count]
    · simp [DbConnection.check_connection, h, hbad, hr]
  · refine ⟨?_, fun hok => absurd hok hr, fun _ => ⟨?_, ?_⟩⟩
    · simp [DbConnection.check_connection, h, hbad, hr, List.count]
    · simp [DbConnection.check_connection, h, hbad, hr]
    · simp [DbError.message]

/-- C3 witness: the degraded, unrecoverable connection resets exactly once
and then fails with the formatted "Lost connection to database" error. -/
theorem C3_check_connection_witness :
    cDown.pConn = some pgDown ∧ pgDown.status ≠ .CONNECTION_OK ∧
    pgDown.statusAfterReset ≠ .CONNECTION_OK ∧
    (cDown.check_connection.trace.count .pqReset = 1 ∧
     cDown.check_connection.res =
       .error (.connStopError "Lost connection to database" pgDown.errorMessage)) := by
  refine ⟨rfl, by decide, by decide, ?_, ?_⟩
  · exact ((C3_check_connection cDown pgDown).2.2 rfl (by decide)).1
  · exact (((C3_check_connection cDown pgDown).2.2 rfl (by decide)).2.2 (by decide)).1

/-- C4 counterexample: the claim says `quote_identifier` proceeds to
native identifier escaping without first checking the connection; but on
a connection with no native handle it fails with the liveness check's
`"Disconnected"` error, performs no native call at all, and in particular
never reaches `PQescapeIdentifier` (the source calls `check_connection()`
at the top of `quote_identifier`, line 220). -/
theorem C4_quote_identifier_checks_cx :
    (cDisc.quote_identifier (.str "x")).res = .error (.stopError "Disconnected") ∧
    (cDisc.quote_identifier (.str "x")).trace = [] ∧
    (cDisc.quote_identifier (.str "x")).trace.count (.pqEscapeIdentifier "x") = 0 := by
  refine ⟨rfl, rfl, rfl⟩

/-- C4 (amended): both `quote_string` and `quote_identifier` perform the
connection-liveness check (`check_connection`) before escaping: whenever
the check fails, each returns exactly the check's error with the check's
trace (so no escape call was made); when the connection is live and OK,
`quote_identifier` proceeds to native identifier escaping after the one
status read. -/
theorem C4_quote_both_check (c : DbConnection) (x : RString) (e : DbError)
    (pg : PGconn) :
    (c.check_connection.res = .error e →
      (c.quote_identifier x).res = .error e ∧
      (c.quote_identifier x).trace = c.check_connection.trace ∧
      (c.quote_string x).res = .error e ∧
      (c.quote_string x).trace = c.check_connection.trace) ∧
    (c.pConn = some pg → pg.status = .CONNECTION_OK →
      c.quote_identifier x =
        ⟨.ok (.fresh (pg.escapeIdentifier x.get_cstring)), c,
         [.pqStatus, .pqEscapeIdentifier x.get_cstring, .pqFreemem]⟩) := by
  constructor
  · intro he
    rcases hcc : c.check_connection with ⟨res, c', tr⟩
    rw [hcc] at he
    simp at he
    subst he
    cases x <;>
      simp [DbConnection.quote_identifier, DbConnection.quote_string, hcc]
  · intro h hok
    have hcc : c.check_connection = ⟨.ok (), c, [.pqStatus]⟩ := by
      simp [DbConnection.check_connection, h, hok]
    cases x <;> simp [DbConnection.quote_identifier, hcc, h]

/-- C4 witness: with a live OK connection, identifier quoting escapes the
input after the single status read. -/
theorem C4_quote_both_check_witness :
    cOk.pConn = some pgOk ∧ pgOk.status = .CONNECTION_OK ∧
    cOk.quote_identifier (.str "tbl") =
      ⟨.ok (.fresh (pgOk.escapeIdentifier "tbl")), cOk,
       [.pqStatus, .pqEscapeIdentifier "tbl", .pqFreemem]⟩ :=
  ⟨rfl, rfl, (C4_quote_both_check cOk (.str "tbl") (.stopError "") pgOk).2 rfl rfl⟩

/-- C7: under a live OK connection, `quote_string` on `NA_STRING` returns
the cached singleton produced by `get_null_string` (the static `"NULL"`
object, a referentially stable constant in this model) and its trace is
just the status read — the native escaping routine is never invoked; on a
present string it delegates to `PQescapeLiteral` and frees the
native-allocated buffer (`pqFreemem`) before returning. -/
theorem C7_quote_string_null (c : DbConnection) (pg : PGconn) (s : String)
    (h : c.pConn = some pg) (hok : pg.status = .CONNECTION_OK) :
    c.quote_string .NA = ⟨.ok get_null_string, c, [.pqStatus]⟩ ∧
    get_null_string = CharSEXP.nullSingleton ∧
    (c.quote_string .NA).trace.count (.pqEscapeLiteral "NA") = 0 ∧
    c.quote_string (.str s) =
      ⟨.ok (.fresh (pg.escapeLiteral s)), c,
       [.pqStatus, .pqEscapeLiteral s, .pqFreemem]⟩ := by
  have hcc : c.check_connection = ⟨.ok (), c, [.pqStatus]⟩ := by
    simp [DbConnection.check_connection, h, hok]
  refine ⟨?_, rfl, ?_, ?_⟩
  · simp [DbConnection.quote_string, hcc]
  · simp [DbConnection.quote_string, hcc, List.count]
  · simp [DbConnection.quote_string, hcc, h]

/-- C7 witness at the concrete live connection. -/
theorem C7_quote_string_null_witness :
    cOk.pConn = some pgOk ∧ pgOk.status = .CONNECTION_OK ∧
    cOk.quote_string .NA = ⟨.ok get_null_string, cOk, [.pqStatus]⟩ ∧
    cOk.quote_string (.str "a") =
      ⟨.ok (.fresh (pgOk.escapeLiteral "a")), cOk,
       [.pqStatus, .pqEscapeLiteral "a", .pqFreemem]⟩ :=
  ⟨rfl, rfl, (C7_quote_string_null cOk pgOk "a" rfl rfl).1,
   (C7_quote_string_null cOk pgOk "a" rfl rfl).2.2.2⟩

/-- Every event of the drain trace is a get or a clear. -/
theorem mem_drainTrace (n : Nat) (a : Event) (ha : a ∈ drainTrace n) :
    a = .pqGetResult ∨ a = .pqClear := by
  induction n with
  | zero => exact .inl (by simpa [drainTrace] using ha)
  | succ k ih =>
    rcases (by simpa [drainTrace] using ha :
        a = Event.pqGetResult ∨ a = Event.pqClear ∨ a ∈ drainTrace k) with h | h | h
    · exact .inl h
    · exact .inr h
    · exact ih h

/-- The drain loop of `finish_query` emits no warnings. -/
theorem warningsOf_drainTrace (n : Nat) : warningsOf (drainTrace n) = [] := by
  induction n with
  | zero => rfl
  | succ k ih => simpa [drainTrace, warningsOf, List.filterMap_cons] using ih

/-- A leading warning event contributes its message to `warningsOf`. -/
theorem warningsOf_cons_warn (m : String) (tr : List Event) :
    warningsOf (.warn m :: tr) = m :: warningsOf tr := by
  simp [warningsOf, List.filterMap_cons]

/-- `warningsOf` distributes over trace concatenation. -/
theorem warningsOf_append (a b : List Event) :
    warningsOf (a ++ b) = warningsOf a ++ warningsOf b := by
  simp [warningsOf, List.filterMap_append]

/-- Under a live OK handle whose cancel machinery works, `cleanup_query`
succeeds and emits no warning. -/
theorem cleanup_query_ok (c : DbConnection) (pg : PGconn)
    (h : c.pConn = some pg) (hok : pg.status = .CONNECTION_OK)
    (hgc : pg.getCancelNull = false) (hca : pg.cancelOk = true) :
    c.cleanup_query.res = .ok () ∧ warningsOf c.cleanup_query.trace = [] := by
  have hcc : c.check_connection = ⟨.ok (), c, [.pqStatus]⟩ := by
    simp [DbConnection.check_connection, h, hok]
  have hcq : c.cancel_query =
      ⟨.ok (), c, [.pqStatus, .pqGetCancel, .pqCancel, .pqFreeCancel]⟩ := by
    simp [DbConnection.cancel_query, hcc, h, hgc, hca]
  by_cases hnc : needsCancel c = true
  · refine ⟨by simp [DbConnection.cleanup_query, hnc, hcq, DbConnection.finish_query, h], ?_⟩
    have htr : c.cleanup_query.trace =
        [.pqStatus, .pqGetCancel, .pqCancel, .pqFreeCancel] ++
          drainTrace pg.pendingResults := by
      simp [DbConnection.cleanup_query, hnc, hcq, DbConnection.finish_query, h]
    rw [htr, warningsOf_append, warningsOf_drainTrace]
    rfl
  · refine ⟨by simp [DbConnection.cleanup_query, hnc, DbConnection.finish_query, h], ?_⟩
    have htr : c.cleanup_query.trace = drainTrace pg.pendingResults := by
      simp [DbConnection.cleanup_query, hnc, DbConnection.finish_query, h]
    rw [htr, warningsOf_drainTrace]

/-- C6: `reset_current_result` is a no-op returning the unchanged state
when the candidate is not the tracked result; when it is, the call runs
`cleanup_query` (same trace) and — when cleanup returns — clears the
tracked pointer, so `has_query()` is false afterwards; and `has_query()`
is false immediately after construction. -/
theorem C6_reset_current_result (c : DbConnection) (r : Option DbResult)
    (keys values : List String) (ci : Bool) (pg : PGconn) (c0 : DbConnection) :
    (ptrEq r c.pCurrentResult = false → c.reset_current_result r = ⟨.ok (), c, []⟩) ∧
    (ptrEq r c.pCurrentResult = true →
      (c.reset_current_result r).trace = c.cleanup_query.trace ∧
      (c.cleanup_query.res = .ok () →
        c.reset_current_result r =
          ⟨.ok (), { c.cleanup_query.conn with pCurrentResult := none },
           c.cleanup_query.trace⟩ ∧
        ((c.reset_current_result r).conn).has_query = false)) ∧
    (construct keys values ci pg = .ok c0 → c0.has_query = false) := by
  refine ⟨fun h => by simp [DbConnection.reset_current_result, h],
          fun h => ?_, fun h => ?_⟩
  · rcases hcq : c.cleanup_query with ⟨res, c', tr⟩
    cases res with
    | error e => simp [DbConnection.reset_current_result, h, hcq]
    | ok u =>
      cases u
      simp [DbConnection.reset_current_result, h, hcq, DbConnection.has_query]
  · rw [construct] at h
    split at h
    · exact absurd h (by simp)
    · cases h
      rfl

/-- C6 witness: resetting with a foreign handle is a no-op; resetting with
the tracked handle clears it; construction starts with no query. -/
theorem C6_reset_current_result_witness :
    (cWithA.reset_current_result (some ⟨7, true⟩) = ⟨.ok (), cWithA, []⟩) ∧
    ((cWithA.reset_current_result (some ⟨0, true⟩)).conn).has_query = false ∧
    (∀ c0, construct ["host"] ["localhost"] false pgOk = .ok c0 →
      c0.has_query = false) := by
  refine ⟨(C6_reset_current_result cWithA (some ⟨7, true⟩) [] [] false pgOk cOk).1
            (by decide), ?_, ?_⟩
  · exact (((C6_reset_current_result cWithA (some ⟨0, true⟩) [] [] false pgOk
      cOk).2.1 (by decide)).2 (by rfl)).2
  · intro c0 h
    exact (C6_reset_current_result cWithA none ["host"] ["localhost"] false pgOk
      c0).2.2 h

/-- C1 counterexample: superseding a tracked result with a distinct
non-null one emits the warning text `"Closing open result set, cancelling
previous query"` (capital C, as at line 61 of the source), not the
lowercase `"closing open result set, cancelling previous query"` the
claim states. -/
theorem C1_set_current_result_cx :
    warningsOf (cWithA.set_current_result (some ⟨1, true⟩)).trace =
      ["Closing open result set, cancelling previous query"] ∧
    "closing open result set, cancelling previous query" ∉
      warningsOf (cWithA.set_current_result (some ⟨1, true⟩)).trace := by
  refine ⟨rfl, by decide⟩

/-- C1 (amended): `set_current_result` enforces the at-most-one-live-query
contract: with the same identity it is a no-op (no warning, no cleanup, no
event); with a distinct non-null candidate it emits exactly one warning —
with the code's text `"Closing open result set, cancelling previous
query"` — performs cleanup of the previous query, and leaves the tracked
current result equal to the candidate; with a null candidate and a tracked
result it performs cleanup without any warning.  (Stated under a live OK
handle whose cancel machinery works, so cleanup itself neither fails nor
warns.) -/
theorem C1_set_current_result_contract (c : DbConnection) (A B : DbResult)
    (pg : PGconn) (hA : c.pCurrentResult = some A) (hc : c.pConn = some pg)
    (hok : pg.status = .CONNECTION_OK) (hgc : pg.getCancelNull = false)
    (hca : pg.cancelOk = true) :
    (c.set_current_result (some A) = ⟨.ok (), c, []⟩) ∧
    (A.id ≠ B.id →
      (c.set_current_result (some B)).res = .ok () ∧
      (c.set_current_result (some B)).conn.pCurrentResult = some B ∧
      warningsOf (c.set_current_result (some B)).trace =
        ["Closing open result set, cancelling previous query"] ∧
      (c.set_current_result (some B)).trace =
        .warn "Closing open result set, cancelling previous query" ::
          c.cleanup_query.trace) ∧
    ((c.set_current_result none).res = .ok () ∧
     (c.set_current_result none).conn.pCurrentResult = none ∧
     warningsOf (c.set_current_result none).trace = [] ∧
     (c.set_current_result none).trace = c.cleanup_query.trace) := by
  obtain ⟨hres, hwarn⟩ := cleanup_query_ok c pg hc hok hgc hca
  rcases hcq : c.cleanup_query with ⟨res, c', tr⟩
  rw [hcq] at hres hwarn
  simp only at hres hwarn
  subst hres
  refine ⟨?_, fun hne => ?_, ?_⟩
  · simp [DbConnection.set_current_result, hA, ptrEq]
  · have hptr : ptrEq (some B) (some A) = false := by
      simp only [ptrEq, beq_eq_false_iff_ne, ne_eq]
      exact fun hEq => hne hEq.symm
    have hstep : c.set_current_result (some B) =
        ⟨.ok (), { c' with pCurrentResult := some B },
         .warn "Closing open result set, cancelling previous query" :: tr⟩ := by
      simp [DbConnection.set_current_result, hA, hptr, hcq]
    rw [hstep]
    exact ⟨rfl, rfl, by rw [warningsOf_cons_warn, hwarn], rfl⟩
  · have hstep : c.set_current_result none =
        ⟨.ok (), { c' with pCurrentResult := none }, tr⟩ := by
      simp [DbConnection.set_current_result, hA, ptrEq, hcq]
    rw [hstep]
    exact ⟨rfl, rfl, hwarn, rfl⟩

/-- C1 witness: at the concrete connection tracking result 0, setting
result 0 again is a no-op, and setting result 1 warns once with the
code's text and tracks result 1. -/
theorem C1_set_current_result_contract_witness :
    cWithA.set_current_result (some ⟨0, true⟩) = ⟨.ok (), cWithA, []⟩ ∧
    warningsOf (cWithA.set_current_result (some ⟨1, true⟩)).trace =
      ["Closing open result set, cancelling previous query"] ∧
    (cWithA.set_current_result (some ⟨1, true⟩)).conn.pCurrentResult =
      some ⟨1, true⟩ := by
  refine ⟨(C1_set_current_result_contract cWithA ⟨0, true⟩ ⟨1, true⟩ pgOk
            rfl rfl rfl rfl rfl).1, ?_, ?_⟩
  · exact ((C1_set_current_result_contract cWithA ⟨0, true⟩ ⟨1, true⟩ pgOk
      rfl rfl rfl rfl rfl).2.1 (by decide)).2.2.1
  · exact ((C1_set_current_result_contract cWithA ⟨0, true⟩ ⟨1, true⟩ pgOk
      rfl rfl rfl rfl rfl).2.1 (by decide)).2.1

/-- When every submission in the window succeeds, the row loop succeeds
and submits exactly the indices `start, …, start+k-1`, in order. -/
theorem copyRowsAux_ok (pg : PGconn) (s k : Nat)
    (h : ∀ i, i < k → pg.putCopyDataOk (s + i) = true) :
    copyRowsAux pg s k = (.ok (), (List.range' s k).map Event.pqPutCopyData) := by
  induction k generalizing s with
  | zero => simp [copyRowsAux]
  | succ m ih =>
    have h0 : pg.putCopyDataOk s = true := by simpa using h 0 (Nat.succ_pos m)
    have hrest : ∀ i, i < m → pg.putCopyDataOk (s + 1 + i) = true := by
      intro i hi
      have heq : s + 1 + i = s + (i + 1) := by omega
      rw [heq]
      exact h (i + 1) (by omega)
    simp [copyRowsAux, h0, ih (s + 1) hrest, List.range'_succ]

/-- When the `j`-th submission is the first to fail, the row loop aborts
with the "Failed to put data" error after submitting indices
`start, …, start+j`. -/
theorem copyRowsAux_fail (pg : PGconn) (s k j : Nat) (hj : j < k)
    (hok : ∀ i, i < j → pg.putCopyDataOk (s + i) = true)
    (hbad : pg.putCopyDataOk (s + j) = false) :
    copyRowsAux pg s k =
      (.error (.connStopError "Failed to put data" pg.errorMessage),
       (List.range' s (j + 1)).map Event.pqPutCopyData) := by
  induction j generalizing s k with
  | zero =>
    cases k with
    | zero => omega
    | succ m =>
      have hb : pg.putCopyDataOk s = false := by simpa using hbad
      simp [copyRowsAux, hb, List.range'_succ]
  | succ m ih =>
    cases k with
    | zero => omega
    | succ k' =>
      have h0 : pg.putCopyDataOk s = true := by simpa using hok 0 (by omega)
      have hok' : ∀ i, i < m → pg.putCopyDataOk (s + 1 + i) = true := by
        intro i hi
        have heq : s + 1 + i = s + (i + 1) := by omega
        rw [heq]
        exact hok (i + 1) (by omega)
      have hbad' : pg.putCopyDataOk (s + 1 + m) = false := by
        have heq : s + 1 + m = s + (m + 1) := by omega
        rw [heq]
        exact hbad
      simp [copyRowsAux, h0, ih (s + 1) k' (by omega) hok' hbad', List.range'_succ]

/-- C2: when the initial statement does not yield copy-in status,
`copy_data` clears (releases) that result, fails with the `conn_stop`
error whose message is `"Failed to initialise COPY"` followed by the
native error text, and never calls `PQputCopyData` (no rows are
submitted). -/
theorem C2_copy_init_failure (c : DbConnection) (pg : PGconn) (sql : String)
    (df : List (List String)) (hdf : df.length ≠ 0) (hc : c.pConn = some pg)
    (hst : pg.execStatus sql ≠ .PGRES_COPY_IN) :
    c.copy_data sql df =
      ⟨.error (.connStopError "Failed to initialise COPY" pg.errorMessage), c,
       [.pqExec sql, .pqClear]⟩ ∧
    (DbError.connStopError "Failed to initialise COPY" pg.errorMessage).message =
      "Failed to initialise COPY: " ++ pg.errorMessage ∧
    (c.copy_data sql df).trace.countP Event.isPutCopyData = 0 ∧
    Event.pqClear ∈ (c.copy_data sql df).trace := by
  have hstep : c.copy_data sql df =
      ⟨.error (.connStopError "Failed to initialise COPY" pg.errorMessage), c,
       [.pqExec sql, .pqClear]⟩ := by
    simp [DbConnection.copy_data, hdf, hc, hst]
  refine ⟨hstep, rfl, ?_, ?_⟩
  · rw [hstep]
    simp [List.countP, List.countP.go, Event.isPutCopyData]
  · rw [hstep]
    simp

/-- C2 witness: at the concrete connection whose `PQexec` yields a fatal
status, copy fails with the formatted init error and an empty row
submission. -/
theorem C2_copy_init_failure_witness :
    cBadExec.copy_data "COPY t FROM STDIN" [["x"]] =
      ⟨.error (.connStopError "Failed to initialise COPY" pgBadExec.errorMessage),
       cBadExec, [.pqExec "COPY t FROM STDIN", .pqClear]⟩ ∧
    (cBadExec.copy_data "COPY t FROM STDIN" [["x"]]).trace.countP
      Event.isPutCopyData = 0 := by
  refine ⟨(C2_copy_init_failure cBadExec pgBadExec "COPY t FROM STDIN" [["x"]]
            (by decide) rfl (by decide)).1,
          (C2_copy_init_failure cBadExec pgBadExec "COPY t FROM STDIN" [["x"]]
            (by decide) rfl (by decide)).2.2.1⟩

/-- C5: with copy-in accepted, `copy_data` submits rows `0` through
`row-count − 1` (row-count = length of the first column) via
`PQputCopyData`, in order; a failing submission aborts with "Failed to put
data"; after all rows it signals end-of-copy (`PQputCopyEnd`), failing
with "Failed to finish COPY" on failure; it then retrieves the final
result and, when its status is not command-OK, clears it and fails with
"COPY returned error", otherwise clears it normally and succeeds. -/
theorem C5_copy_data_rows (c : DbConnection) (pg : PGconn) (sql : String)
    (df : List (List String)) (hdf : df.length ≠ 0) (hc : c.pConn = some pg)
    (hcopy : pg.execStatus sql = .PGRES_COPY_IN) :
    ((∀ i, i < (df.headD []).length → pg.putCopyDataOk i = true) →
      (pg.putCopyEndOk = true →
        (pg.getResultStatus = .PGRES_COMMAND_OK →
          c.copy_data sql df =
            ⟨.ok (), c, .pqExec sql :: .pqClear ::
              ((List.range' 0 (df.headD []).length).map Event.pqPutCopyData ++
               [.pqPutCopyEnd, .pqGetResult, .pqClear])⟩) ∧
        (pg.getResultStatus ≠ .PGRES_COMMAND_OK →
          c.copy_data sql df =
            ⟨.error (.connStopError "COPY returned error" pg.errorMessage), c,
             .pqExec sql :: .pqClear ::
              ((List.range' 0 (df.headD []).length).map Event.pqPutCopyData ++
               [.pqPutCopyEnd, .pqGetResult, .pqClear])⟩)) ∧
      (pg.putCopyEndOk = false →
        c.copy_data sql df =
          ⟨.error (.connStopError "Failed to finish COPY" pg.errorMessage), c,
           .pqExec sql :: .pqClear ::
            ((List.range' 0 (df.headD []).length).map Event.pqPutCopyData ++
             [.pqPutCopyEnd])⟩)) ∧
    (∀ j, j < (df.headD []).length →
      (∀ i, i < j → pg.putCopyDataOk i = true) → pg.putCopyDataOk j = false →
      c.copy_data sql df =
        ⟨.error (.connStopError "Failed to put data" pg.errorMessage), c,
         .pqExec sql :: .pqClear ::
          (List.range' 0 (j + 1)).map Event.pqPutCopyData⟩) := by
  constructor
  · intro hrows
    have hrows0 : ∀ i, i < (df.headD []).length → pg.putCopyDataOk (0 + i) = true := by
      simpa using hrows
    have haux := copyRowsAux_ok pg 0 (df.headD []).length hrows0
    rw [List.headD_eq_head?_getD] at haux
    refine ⟨fun hend => ⟨fun hres => ?_, fun hres => ?_⟩, fun hend => ?_⟩
    · simp [DbConnection.copy_data, hdf, hc, hcopy, haux, hend, hres]
    · simp [DbConnection.copy_data, hdf, hc, hcopy, haux, hend, hres]
    · simp [DbConnection.copy_data, hdf, hc, hcopy, haux, hend]
  · intro j hj hok hbad
    have hok0 : ∀ i, i < j → pg.putCopyDataOk (0 + i) = true := by simpa using hok
    have haux := copyRowsAux_fail pg 0 (df.headD []).length j hj hok0
      (by simpa using hbad)
    rw [List.headD_eq_head?_getD] at haux
    simp [DbConnection.copy_data, hdf, hc, hcopy, haux]

/-- C5 witness: two rows are submitted in order and the copy completes. -/
theorem C5_copy_data_rows_witness :
    cOk.copy_data "COPY t FROM STDIN" [["a", "b"]] =
      ⟨.ok (), cOk, .pqExec "COPY t FROM STDIN" :: .pqClear ::
        ((List.range' 0 2).map Event.pqPutCopyData ++
         [.pqPutCopyEnd, .pqGetResult, .pqClear])⟩ :=
  (((C5_copy_data_rows cOk pgOk "COPY t FROM STDIN" [["a", "b"]]
      (by decide) rfl rfl).1 (fun i _ => rfl)).1 rfl).1 rfl

/-- C10: the zero-column early return is decided by column count only:
with at least one column but a zero-length first column, `copy_data`
still executes the sql statement (a `PQexec` event occurs — not a no-op),
still requires copy-in status from it, submits no data rows, and still
performs the end-of-copy signal and the final command-OK status check. -/
theorem C10_copy_data_zero_rows (c : DbConnection) (pg : PGconn) (sql : String)
    (df : List (List String)) (hdf : df.length ≠ 0)
    (h0 : (df.headD []).length = 0) (hc : c.pConn = some pg) :
    Event.pqExec sql ∈ (c.copy_data sql df).trace ∧
    (c.copy_data sql df).trace.countP Event.isPutCopyData = 0 ∧
    (pg.execStatus sql ≠ .PGRES_COPY_IN →
      (c.copy_data sql df).res =
        .error (.connStopError "Failed to initialise COPY" pg.errorMessage)) ∧
    (pg.execStatus sql = .PGRES_COPY_IN →
      (pg.putCopyEndOk = false →
        (c.copy_data sql df).res =
          .error (.connStopError "Failed to finish COPY" pg.errorMessage)) ∧
      (pg.putCopyEndOk = true →
        Event.pqPutCopyEnd ∈ (c.copy_data sql df).trace ∧
        Event.pqGetResult ∈ (c.copy_data sql df).trace ∧
        (pg.getResultStatus = .PGRES_COMMAND_OK → (c.copy_data sql df).res = .ok ()) ∧
        (pg.getResultStatus ≠ .PGRES_COMMAND_OK →
          (c.copy_data sql df).res =
            .error (.connStopError "COPY returned error" pg.errorMessage)))) := by
  have h0' : (df.head?.getD []).length = 0 := by
    rw [← List.headD_eq_head?_getD]
    exact h0
  by_cases hex : pg.execStatus sql = .PGRES_COPY_IN
  · have haux : copyRowsAux pg 0 (df.head?.getD []).length = (.ok (), []) := by
      rw [h0']
      rfl
    by_cases hend : pg.putCopyEndOk = true
    · by_cases hres : pg.getResultStatus = .PGRES_COMMAND_OK
      · have hstep : c.copy_data sql df =
            ⟨.ok (), c, [.pqExec sql, .pqClear, .pqPutCopyEnd, .pqGetResult, .pqClear]⟩ := by
          simp [DbConnection.copy_data, hdf, hc, hex, haux, hend, hres]
        rw [hstep]
        refine ⟨by simp, rfl, fun h => absurd hex h, fun _ => ?_⟩
        exact ⟨fun h => by simp [h] at hend, fun _ =>
          ⟨by simp, by simp, fun _ => rfl, fun h => absurd hres h⟩⟩
      · have hstep : c.copy_data sql df =
            ⟨.error (.connStopError "COPY returned error" pg.errorMessage), c,
             [.pqExec sql, .pqClear, .pqPutCopyEnd, .pqGetResult, .pqClear]⟩ := by
          simp [DbConnection.copy_data, hdf, hc, hex, haux, hend, hres]
        rw [hstep]
        refine ⟨by simp, rfl, fun h => absurd hex h, fun _ => ?_⟩
        exact ⟨fun h => by simp [h] at hend, fun _ =>
          ⟨by simp, by simp, fun h => absurd h hres, fun _ => rfl⟩⟩
    · have hstep : c.copy_data sql df =
          ⟨.error (.connStopError "Failed to finish COPY" pg.errorMessage), c,
           [.pqExec sql, .pqClear, .pqPutCopyEnd]⟩ := by
        simp [DbConnection.copy_data, hdf, hc, hex, haux, hend]
      rw [hstep]
      refine ⟨by simp, rfl, fun h => absurd hex h, fun _ => ?_⟩
      exact ⟨fun _ => rfl, fun h => absurd h hend⟩
  · have hstep : c.copy_data sql df =
        ⟨.error (.connStopError "Failed to initialise COPY" pg.errorMessage), c,
         [.pqExec sql, .pqClear]⟩ := by
      simp [DbConnection.copy_data, hdf, hc, hex]
    rw [hstep]
    exact ⟨by simp, rfl, fun _ => rfl, fun h => absurd h hex⟩

/-- C10 witness: a one-column, zero-row frame on the healthy connection
runs the whole copy-in protocol with no row submissions. -/
theorem C10_copy_data_zero_rows_witness :
    Event.pqExec "COPY t FROM STDIN" ∈
      (cOk.copy_data "COPY t FROM STDIN" [[]]).trace ∧
    (cOk.copy_data "COPY t FROM STDIN" [[]]).trace.countP Event.isPutCopyData = 0 ∧
    Event.pqPutCopyEnd ∈ (cOk.copy_data "COPY t FROM STDIN" [[]]).trace ∧
    (cOk.copy_data "COPY t FROM STDIN" [[]]).res = .ok () := by
  refine ⟨(C10_copy_data_zero_rows cOk pgOk "COPY t FROM STDIN" [[]]
            (by decide) rfl rfl).1,
          (C10_copy_data_zero_rows cOk pgOk "COPY t FROM STDIN" [[]]
            (by decide) rfl rfl).2.1,
          (((C10_copy_data_zero_rows cOk pgOk "COPY t FROM STDIN" [[]]
            (by decide) rfl rfl).2.2.2 rfl).2 rfl).1,
          ((((C10_copy_data_zero_rows cOk pgOk "COPY t FROM STDIN" [[]]
            (by decide) rfl rfl).2.2.2 rfl).2 rfl).2.2.1 rfl)⟩

end RPostgres
